import Mathlib

/-!
Verification of the PostgreSQL actor placement store
(`actorstore/postgresql`) of dapr-components-contrib.

The Go source is shallowly embedded: database tables become lists of
rows, the connection pool and the database become explicit state, and
external failures (driver errors, context cancellation) are injected
through explicit outcome parameters.  Statements issued to the database
are recorded in a trace so that claims about "no database access" or
"executed inside the transaction" can be stated precisely.
-/

namespace ActorStorePg

/-- Underlying database/driver errors, as classified by the store
(`isUniqueViolationError`, `pgx.ErrNoRows`, anything else). -/
inductive DbErr where
  | uniqueViolation
  | noRows
  | otherErr (code : Nat)
deriving DecidableEq

/-- Errors returned by store operations: the typed domain errors of the
`actorstore` package, wrapped database errors (`fmt.Errorf("...: %w")`),
configuration errors, and lifecycle errors. -/
inductive StoreErr where
  | invalidRequest
  | hostConflict
  | hostNotFound
  | actorNotFound
  | noActorHost
  | reminderNotFound
  | alreadyRunning
  | notRunning
  | ctxCancelled
  | dbWrapped (msg : String) (e : DbErr)
  | confErr (msg : String)
deriving DecidableEq

/-- `isUniqueViolationError`: true exactly for a unique-constraint
violation reported by the driver. -/
def isUniqueViolationError : DbErr → Bool
  | .uniqueViolation => true
  | _ => false

/-! ## Metadata / configuration (`actorstore_metadata.go`) -/

/-- The logical tables owned by the store (`pgTable`). -/
inductive PgTable where
  | hosts
  | hostsActorTypes
  | actors
deriving DecidableEq

/-- The fixed suffix for each logical table
(`pgTableHosts = "hosts"`, etc.). -/
def pgTableSuffix : PgTable → String
  | .hosts => "hosts"
  | .hostsActorTypes => "hosts_actor_types"
  | .actors => "actors"

/-- Parsed configuration (`pgMetadata`).  Durations are modelled in
milliseconds. -/
structure PgMetadata where
  tablePfx : String
  metadataTableName : String
  timeout : Nat
deriving DecidableEq

/-- The recognised keys of the generic property map, after generic
decoding (`metadata.DecodeMetadata`): `none` means the key was absent. -/
structure RawMetadata where
  tablePfx : Option String
  metadataTableName : Option String
  timeout : Option Nat
deriving DecidableEq

/-- `pgMetadata.InitWithMetadata`: reset to defaults, decode the
property map, run the shared auth sub-parser, then validate the
timeout (`m.Timeout < 1*time.Second` is rejected).  Failures of the
external decoder and auth parser are injected as flags. -/
def initWithMetadata (raw : RawMetadata) (decodeErr : Bool) (authErr : Bool) :
    Except StoreErr PgMetadata :=
  -- Reset the object to defaults
  let m0 : PgMetadata := ⟨"", "dapr_metadata", 20000⟩
  -- Decode the metadata (external collaborator; may fail)
  if decodeErr then .error (.confErr "failed to decode metadata") else
  let m1 : PgMetadata :=
    ⟨raw.tablePfx.getD m0.tablePfx,
     raw.metadataTableName.getD m0.metadataTableName,
     raw.timeout.getD m0.timeout⟩
  -- Validate and sanitize input (shared auth sub-parser; may fail)
  if authErr then .error (.confErr "failed to validate auth metadata") else
  -- Timeout
  if m1.timeout < 1000 then
    .error (.confErr "invalid value for timeout: must be greater than 0")
  else .ok m1

/-- `pgMetadata.TableName`: physical name = prefix ++ fixed suffix. -/
def tableName (m : PgMetadata) (t : PgTable) : String :=
  m.tablePfx ++ pgTableSuffix t

/-! ## Lifecycle (`Init`, `Ping`, `Close`) -/

/-- The mutable fields of the `PostgreSQL` struct relevant to the
lifecycle: the atomic `running` flag, the parsed metadata, and the
connection pool (`none` = nil pointer). -/
structure PgState where
  running : Bool
  md : Option PgMetadata
  db : Option Nat
deriving DecidableEq

/-- Failure injection for the external steps of `Init`: metadata
decoding, auth parsing, pool creation, ping, migrations. -/
structure InitEnv where
  raw : RawMetadata
  decodeErr : Bool
  authErr : Bool
  connErr : Bool
  pingErr : Bool
  migErr : Bool
deriving DecidableEq

/-- `PostgreSQL.Init`: compare-and-swap on `running` first; on CAS
failure returns "already running" without touching any state.  After a
successful CAS the flag is never reset, even when a later step fails. -/
def pgInit (st : PgState) (env : InitEnv) : PgState × Option StoreErr :=
  if st.running then (st, some .alreadyRunning)
  else
    let st1 : PgState := ⟨true, st.md, st.db⟩
    match initWithMetadata env.raw env.decodeErr env.authErr with
    | .error e => (st1, some e)
    | .ok m =>
      let st2 : PgState := ⟨true, some m, st1.db⟩
      if env.connErr then (st2, some (.confErr "failed to connect to the database"))
      else
        let st3 : PgState := ⟨true, some m, some 1⟩
        if env.pingErr then (st3, some (.confErr "failed to ping the database"))
        else if env.migErr then (st3, some (.confErr "failed to perform migrations"))
        else (st3, none)

/-- `PostgreSQL.Ping`: guarded by the `running` flag; after the guard
the outcome is the underlying pool ping. -/
def pgPing (st : PgState) (pingErr : Bool) : Option StoreErr :=
  if st.running = false then some .notRunning
  else if pingErr then some (.confErr "ping failed") else none

/-- `PostgreSQL.Close`, as written in the source: when running and the
pool is non-nil it calls `p.Close()` again on unchanged state.  The
fuel argument counts recursive calls; `none` means the computation does
not return within the given fuel (for every fuel: divergence). -/
def pgClose : Nat → PgState → Option (Option StoreErr)
  | 0, _ => none
  | fuel + 1, st =>
    if st.running = false then some none
    else match st.db with
      | some _ => pgClose fuel st
      | none => some none

/-! ## Data model of the three tables -/

/-- A row of the `hosts` table. -/
structure HostRow where
  hostID : String
  address : String
  appID : String
  apiLevel : Int
  lastHealthCheck : Nat
deriving DecidableEq

/-- A row of the `hosts_actor_types` table. -/
structure HostActorTypeRow where
  hostID : String
  actorType : String
  idleTimeout : Nat
deriving DecidableEq

/-- A row of the `actors` (assignment) table. -/
structure ActorRow where
  actorType : String
  actorID : String
  hostID : String
deriving DecidableEq

/-- The committed (visible) database state. -/
structure DBState where
  hosts : List HostRow
  hostActorTypes : List HostActorTypeRow
  actors : List ActorRow
deriving DecidableEq

/-- `actorstore.ActorHostType`: a supported actor type with its idle
timeout. -/
structure ActorHostType where
  actorType : String
  idleTimeout : Nat
deriving DecidableEq

/-- `actorstore.UpdateActorHostRequest`: both fields are independently
present-or-absent. -/
structure UpdateActorHostRequest where
  lastHealthCheck : Option Nat
  actorTypes : Option (List ActorHostType)
deriving DecidableEq

/-- `actorstore.AddActorHostRequest`. -/
structure AddActorHostRequest where
  address : String
  appID : String
  apiLevel : Int
  actorTypes : List ActorHostType
deriving DecidableEq

/-- `actorstore.ActorRef` (without the reminder name). -/
structure ActorRef where
  actorType : String
  actorID : String
deriving DecidableEq

/-- SQL statements issued to the database, recorded in execution
order. -/
inductive Stmt where
  | beginTx
  | commitTx
  | rollbackTx
  | updateHostsStmt
  | deleteHostActorTypesStmt
  | insertHostActorTypesStmt
  | insertHostsStmt
  | deleteHostsStmt
  | deleteActorsStmt
  | deleteRemindersStmt
deriving DecidableEq

/-- Result of a state-mutating store operation: the visible database
state afterwards, the returned error, and the statements issued. -/
structure OpRun where
  state : DBState
  err : Option StoreErr
  trace : List Stmt
deriving DecidableEq

/-! ## LookupActor (`part_000`, lines 325-372) -/

/-- `actorstore.LookupActorResponse`. -/
structure LookupActorResponse where
  appID : String
  address : String
  idleTimeout : Nat
deriving DecidableEq

/-- The zero value of `LookupActorResponse` (Go named return `res`). -/
def zeroLookupResponse : LookupActorResponse := ⟨"", "", 0⟩

/-- Outcome of one execution of the lookup query, decided by the
database. -/
inductive QueryOutcome where
  | ok (r : LookupActorResponse)
  | fail (e : DbErr)
deriving DecidableEq

/-- Observable result of a `LookupActor` call: the response and error
returned, the number of queries attempted, and the durations (ms) of
the completed backoff sleeps. -/
structure LookupRun where
  res : LookupActorResponse
  err : Option StoreErr
  attempts : Nat
  sleeps : List Nat
deriving DecidableEq

/-- The retry loop of `LookupActor` (`for i := 0; i < 3; i++`).
`outcome i` is the database's answer to attempt `i`; `cancelled i`
tells whether the caller's context is done during backoff `i` (the
`select` between `time.After(50ms)` and `ctx.Done()`).  `rem` is the
number of loop iterations left; when it reaches 0 the loop exits and
the function returns `res, nil` (the named returns at that point). -/
def lookupLoop (outcome : Nat → QueryOutcome) (cancelled : Nat → Bool) :
    Nat → Nat → LookupRun
  | 0, _ => ⟨zeroLookupResponse, none, 0, []⟩
  | rem + 1, i =>
    match outcome i with
    | .ok r => ⟨r, none, 1, []⟩
    | .fail e =>
      if e = .noRows then ⟨zeroLookupResponse, some .noActorHost, 1, []⟩
      else if isUniqueViolationError e then
        if cancelled i then ⟨zeroLookupResponse, some .ctxCancelled, 1, []⟩
        else
          let r := lookupLoop outcome cancelled rem (i + 1)
          ⟨r.res, r.err, r.attempts + 1, 50 :: r.sleeps⟩
      else ⟨zeroLookupResponse, some (.dbWrapped "database error" e), 1, []⟩

/-- `PostgreSQL.LookupActor`: validation, then at most 3 attempts. -/
def lookupActor (ref : ActorRef) (outcome : Nat → QueryOutcome)
    (cancelled : Nat → Bool) : LookupRun :=
  if ref.actorType = "" ∨ ref.actorID = "" then
    ⟨zeroLookupResponse, some .invalidRequest, 0, []⟩
  else lookupLoop outcome cancelled 3 0

/-! ## Host and actor CRUD (`part_000`) -/

/-- True when the `hosts` table has a row for this host ID (decides
`RowsAffected` of statements keyed on `host_id`). -/
def hostExists (hosts : List HostRow) (id : String) : Bool :=
  hosts.any fun h => h.hostID == id

/-- Apply `UPDATE hosts SET host_last_healthcheck = t WHERE host_id = id`. -/
def setHealthCheck (hosts : List HostRow) (id : String) (t : Nat) : List HostRow :=
  hosts.map fun h => if h.hostID == id then ⟨h.hostID, h.address, h.appID, h.apiLevel, t⟩ else h

/-- Apply `DELETE FROM hosts_actor_types WHERE host_id = id`. -/
def dropTypesFor (rows : List HostActorTypeRow) (id : String) : List HostActorTypeRow :=
  rows.filter fun r => r.hostID != id

/-- The rows that registering `ts` for host `id` inserts. -/
def typesRowsFor (id : String) (ts : List ActorHostType) : List HostActorTypeRow :=
  ts.map fun t => ⟨id, t.actorType, t.idleTimeout⟩

/-- `updateHostsTable`: when `LastHealthCheck` is absent no statement is
issued; otherwise one UPDATE runs against the given view of the hosts
table, a driver failure is wrapped, and zero affected rows yields
`ErrActorHostNotFound`.  Returns the updated view, the error, and the
statements issued. -/
def updateHostsTable (view : List HostRow) (actorHostID : String)
    (lhc : Option Nat) (fail : Bool) :
    List HostRow × Option StoreErr × List Stmt :=
  match lhc with
  | none => (view, none, [])
  | some t =>
    if fail then
      (view, some (.dbWrapped "failed to update actor host" (.otherErr 0)), [.updateHostsStmt])
    else if hostExists view actorHostID then
      (setHealthCheck view actorHostID t, none, [.updateHostsStmt])
    else (view, some .hostNotFound, [.updateHostsStmt])

/-- `insertHostActorTypes`: with an empty list nothing is done;
otherwise one `CopyFrom` bulk insert runs (a failure, including a
row-count mismatch, is wrapped).  Returns the rows to insert, the
error, and the statements issued. -/
def insertHostActorTypes (ts : List ActorHostType) (actorHostID : String)
    (fail : Bool) : List HostActorTypeRow × Option StoreErr × List Stmt :=
  if ts.isEmpty then ([], none, [])
  else if fail then
    ([], some (.dbWrapped "failed to insert supported actor types in hosts actor types table" (.otherErr 0)),
     [.insertHostActorTypesStmt])
  else (typesRowsFor actorHostID ts, none, [.insertHostActorTypesStmt])

/-- Failure injection for `UpdateActorHost`. -/
structure UpdateFail where
  beginErr : Bool
  updateErr : Bool
  deleteErr : Bool
  insertErr : Bool
  commitErr : Bool
deriving DecidableEq

/-- `PostgreSQL.UpdateActorHost`.  With `ActorTypes == nil` a single
UPDATE runs on the pool.  With `ActorTypes` present, a transaction is
opened; inside it the host update (via `tx`) and the insert of new
actor-type rows (via `tx`) are buffered and applied only on commit,
while — exactly as in the source — the DELETE of the old actor-type
rows is executed through the pool `p.db`, so its effect lands on the
committed state immediately, independent of the transaction's fate. -/
def updateActorHost (st : DBState) (actorHostID : String)
    (props : UpdateActorHostRequest) (f : UpdateFail) : OpRun :=
  if actorHostID = "" ∨ (props.lastHealthCheck = none ∧ props.actorTypes = none) then
    ⟨st, some .invalidRequest, []⟩
  else match props.actorTypes with
  | none =>
    -- Single statement against the pool, no transaction
    match updateHostsTable st.hosts actorHostID props.lastHealthCheck f.updateErr with
    | (hosts2, err, tr) => ⟨⟨hosts2, st.hostActorTypes, st.actors⟩, err, tr⟩
  | some ts =>
    -- executeInTransaction
    if f.beginErr then
      ⟨st, some (.dbWrapped "failed to begin transaction" (.otherErr 0)), [.beginTx]⟩
    else
      match updateHostsTable st.hosts actorHostID props.lastHealthCheck f.updateErr with
      | (_, some e, tr1) =>
        -- body error: rollback, nothing was applied to the committed state
        ⟨st, some e, .beginTx :: tr1 ++ [.rollbackTx]⟩
      | (hostsTx, none, tr1) =>
        -- DELETE issued through p.db (the pool), outside the transaction
        if f.deleteErr then
          ⟨st, some (.dbWrapped "failed to delete old host actor types" (.otherErr 0)),
           .beginTx :: tr1 ++ [.deleteHostActorTypesStmt, .rollbackTx]⟩
        else
          let committed : DBState :=
            ⟨st.hosts, dropTypesFor st.hostActorTypes actorHostID, st.actors⟩
          match insertHostActorTypes ts actorHostID f.insertErr with
          | (_, some e, tr2) =>
            -- rollback discards the buffered tx writes, but not the pool DELETE
            ⟨committed, some e,
             .beginTx :: tr1 ++ [.deleteHostActorTypesStmt] ++ tr2 ++ [.rollbackTx]⟩
          | (newRows, none, tr2) =>
            if f.commitErr then
              ⟨committed, some (.dbWrapped "failed to commit transaction" (.otherErr 0)),
               .beginTx :: tr1 ++ [.deleteHostActorTypesStmt] ++ tr2 ++ [.commitTx, .rollbackTx]⟩
            else
              ⟨⟨hostsTx, committed.hostActorTypes ++ newRows, st.actors⟩, none,
               .beginTx :: tr1 ++ [.deleteHostActorTypesStmt] ++ tr2 ++ [.commitTx]⟩

/-- Failure injection for `AddActorHost`: outcome of the host-row
INSERT (`none` = success), of the actor-types insert, and of
begin/commit. -/
structure AddFail where
  beginErr : Bool
  insertHost : Option DbErr
  insertTypesErr : Bool
  commitErr : Bool
deriving DecidableEq

/-- Result of `AddActorHost`: the returned host ID (on success), the
visible state, the error, and the statements issued. -/
structure AddRun where
  hostID : Option String
  state : DBState
  err : Option StoreErr
  trace : List Stmt
deriving DecidableEq

/-- `PostgreSQL.AddActorHost`: validation, then a transaction inserting
the host row (unique violation → `ErrActorHostConflict`) and the
actor-type declarations; both writes are buffered in the transaction
and applied on commit.  `newHostID` is the generated `host_id`; `now`
is `CURRENT_TIMESTAMP`. -/
def addActorHost (st : DBState) (props : AddActorHostRequest)
    (newHostID : String) (now : Nat) (f : AddFail) : AddRun :=
  if props.appID = "" ∨ props.address = "" ∨ props.apiLevel ≤ 0 then
    ⟨none, st, some .invalidRequest, []⟩
  else if f.beginErr then
    ⟨none, st, some (.dbWrapped "failed to begin transaction" (.otherErr 0)), [.beginTx]⟩
  else match f.insertHost with
  | some .uniqueViolation =>
    ⟨none, st, some .hostConflict, [.beginTx, .insertHostsStmt, .rollbackTx]⟩
  | some e =>
    ⟨none, st, some (.dbWrapped "failed to insert actor host in hosts table" e),
     [.beginTx, .insertHostsStmt, .rollbackTx]⟩
  | none =>
    match insertHostActorTypes props.actorTypes newHostID f.insertTypesErr with
    | (_, some e, tr2) =>
      ⟨none, st, some e, .beginTx :: .insertHostsStmt :: tr2 ++ [.rollbackTx]⟩
    | (newRows, none, tr2) =>
      if f.commitErr then
        ⟨none, st, some (.dbWrapped "failed to commit transaction" (.otherErr 0)),
         .beginTx :: .insertHostsStmt :: tr2 ++ [.commitTx, .rollbackTx]⟩
      else
        ⟨some newHostID,
         ⟨st.hosts ++ [⟨newHostID, props.address, props.appID, props.apiLevel, now⟩],
          st.hostActorTypes ++ newRows, st.actors⟩,
         none, .beginTx :: .insertHostsStmt :: tr2 ++ [.commitTx]⟩

/-- `PostgreSQL.RemoveActorHost`: one DELETE on the hosts table; the
actor-type and assignment rows go away through the cascading foreign
keys; zero affected rows yields `ErrActorHostNotFound`. -/
def removeActorHost (st : DBState) (actorHostID : String) (fail : Bool) : OpRun :=
  if actorHostID = "" then ⟨st, some .invalidRequest, []⟩
  else if fail then
    ⟨st, some (.dbWrapped "failed to remove actor host" (.otherErr 0)), [.deleteHostsStmt]⟩
  else if hostExists st.hosts actorHostID then
    ⟨⟨st.hosts.filter (fun h => h.hostID != actorHostID),
      dropTypesFor st.hostActorTypes actorHostID,
      st.actors.filter (fun a => a.hostID != actorHostID)⟩,
     none, [.deleteHostsStmt]⟩
  else ⟨st, some .hostNotFound, [.deleteHostsStmt]⟩

/-- `PostgreSQL.RemoveActor`: one DELETE on the actors table; zero
affected rows yields `ErrActorNotFound`. -/
def removeActor (st : DBState) (ref : ActorRef) (fail : Bool) : OpRun :=
  if ref.actorType = "" ∨ ref.actorID = "" then ⟨st, some .invalidRequest, []⟩
  else if fail then
    ⟨st, some (.dbWrapped "failed to remove actor" (.otherErr 0)), [.deleteActorsStmt]⟩
  else if st.actors.any (fun a => a.actorType == ref.actorType && a.actorID == ref.actorID) then
    ⟨⟨st.hosts, st.hostActorTypes,
      st.actors.filter (fun a => !(a.actorType == ref.actorType && a.actorID == ref.actorID))⟩,
     none, [.deleteActorsStmt]⟩
  else ⟨st, some .actorNotFound, [.deleteActorsStmt]⟩

/-! ## Reminder store

The reminders source file (with `DeleteReminder` and the
`fetch_reminders` SQL function referenced by the conformance tests) is
not among the provided source files; the definitions below are built
from the specification's description of those operations. -/

/-- A lease on a reminder: lease ID, acquisition time, and the leasing
process's identifier. -/
structure Lease where
  leaseID : String
  leaseTime : Nat
  pid : String
deriving DecidableEq

/-- A row of the `reminders` table: primary key `reminder_id`, the
(actor type, actor ID, name) triple, the scheduled execution time, and
the optional lease. -/
structure Reminder where
  id : String
  actorType : String
  actorID : String
  name : String
  executionTime : Nat
  lease : Option Lease
deriving DecidableEq

/-- Modelled from the spec: `DeleteReminder` (its source file is not
under src/) deletes the reminder keyed by (actor type, actor ID,
reminder name) with a single DELETE, and fails with `ReminderNotFound`
when that key is absent. -/
def deleteReminder (rs : List Reminder) (ref : ActorRef) (name : String)
    (fail : Bool) : List Reminder × Option StoreErr × List Stmt :=
  if fail then
    (rs, some (.dbWrapped "failed to delete reminder" (.otherErr 0)), [.deleteRemindersStmt])
  else if rs.any (fun r => r.actorType == ref.actorType && r.actorID == ref.actorID && r.name == name) then
    (rs.filter (fun r => !(r.actorType == ref.actorType && r.actorID == ref.actorID && r.name == name)),
     none, [.deleteRemindersStmt])
  else (rs, some .reminderNotFound, [.deleteRemindersStmt])

/-- A reminder is eligible for fetching: due (execution time ≤ now) and
either unleased or carrying a stale lease (older than the staleness
threshold). -/
def reminderEligible (now staleness : Nat) (r : Reminder) : Bool :=
  decide (r.executionTime ≤ now) &&
    (match r.lease with
     | none => true
     | some l => decide (l.leaseTime + staleness < now))

/-- Mark one reminder leased by the calling fetcher when it is
eligible; leave it untouched otherwise. -/
def applyLease (now staleness : Nat) (pid leaseID : String) (r : Reminder) : Reminder :=
  if reminderEligible now staleness r then
    ⟨r.id, r.actorType, r.actorID, r.name, r.executionTime, some ⟨leaseID, now, pid⟩⟩
  else r

/-- Modelled from the spec: the fetch-and-lease operation (the
server-side `fetch_reminders` SQL function, not under src/) selects the
due, unleased-or-stale-leased reminders and, in the same indivisible
step, marks every selected reminder leased with a fresh lease ID, the
current time, and the calling process's identifier.  It returns the
selected reminder IDs and the new table state.  The whole operation is
one atomic transition on the reminders table. -/
def fetchAndLease (rs : List Reminder) (now staleness : Nat)
    (pid leaseID : String) : List String × List Reminder :=
  ((rs.filter (reminderEligible now staleness)).map (fun r => r.id),
   rs.map (applyLease now staleness pid leaseID))

/-! ## Theorems -/

/-- Claim C8: configuration parsing applies the defaults
`tablePrefix = ""`, `metadataTableName = "dapr_metadata"` and
`timeout = 20s` for absent keys, rejects a configured timeout strictly
below 1 second, accepts exactly 1 second and above, and every physical
table name is the configured prefix concatenated with the fixed
logical suffix. -/
theorem metadata_defaults_and_validation :
    initWithMetadata ⟨none, none, none⟩ false false = .ok ⟨"", "dapr_metadata", 20000⟩
    ∧ (∀ px mt, initWithMetadata ⟨px, mt, none⟩ false false =
        .ok ⟨px.getD "", mt.getD "dapr_metadata", 20000⟩)
    ∧ (∀ raw t, raw.timeout = some t → t < 1000 →
        initWithMetadata raw false false =
          .error (.confErr "invalid value for timeout: must be greater than 0"))
    ∧ (∀ raw t, raw.timeout = some t → 1000 ≤ t →
        initWithMetadata raw false false =
          .ok ⟨raw.tablePfx.getD "", raw.metadataTableName.getD "dapr_metadata", t⟩)
    ∧ (∀ m t, tableName m t = m.tablePfx ++ pgTableSuffix t) := by
  refine ⟨rfl, ?_, ?_, ?_, ?_⟩
  · intro px mt
    simp [initWithMetadata]
  · rintro ⟨px, mt, tmo⟩ t ht hlt
    cases ht
    simp [initWithMetadata, hlt]
  · rintro ⟨px, mt, tmo⟩ t ht hge
    cases ht
    simp [initWithMetadata, Nat.not_lt.mpr hge]
  · intro m t
    rfl

/-- Witness for C8 at concrete inputs: timeout 999 ms is rejected and
timeout 1000 ms is accepted. -/
theorem metadata_defaults_and_validation_witness :
    ((⟨none, none, some 999⟩ : RawMetadata).timeout = some 999 ∧ 999 < 1000
      ∧ initWithMetadata ⟨none, none, some 999⟩ false false =
          .error (.confErr "invalid value for timeout: must be greater than 0"))
    ∧ ((⟨some "p", none, some 1000⟩ : RawMetadata).timeout = some 1000 ∧ 1000 ≤ 1000
      ∧ initWithMetadata ⟨some "p", none, some 1000⟩ false false =
          .ok ⟨"p", "dapr_metadata", 1000⟩) :=
  ⟨⟨rfl, by decide,
    metadata_defaults_and_validation.2.2.1 ⟨none, none, some 999⟩ 999 rfl (by decide)⟩,
   ⟨rfl, by decide,
    metadata_defaults_and_validation.2.2.2.1 ⟨some "p", none, some 1000⟩ 1000 rfl (by decide)⟩⟩

/-- Claim C9: the lifecycle is gated by a compare-and-swap on the
`running` flag: an `Init` on a running store returns "already running"
without modifying any state; any `Init` on a non-running store sets the
flag (even when it later fails, the flag is not reset), so every
subsequent `Init` hits the guard; `Ping` returns "not running" whenever
the flag is unset. -/
theorem init_guard_and_ping :
    (∀ st env, st.running = true → pgInit st env = (st, some .alreadyRunning))
    ∧ (∀ st env, st.running = false → ((pgInit st env).1).running = true)
    ∧ (∀ st env1 env2, st.running = false →
        pgInit (pgInit st env1).1 env2 = ((pgInit st env1).1, some .alreadyRunning))
    ∧ (∀ st pe, st.running = false → pgPing st pe = some .notRunning) := by
  have hrun : ∀ st env, st.running = false → ((pgInit st env).1).running = true := by
    intro st env h
    simp only [pgInit, h, Bool.false_eq_true, if_false]
    rcases hm : initWithMetadata env.raw env.decodeErr env.authErr with e | m
    · simp
    · by_cases hc : env.connErr
      · simp [hc]
      · by_cases hp : env.pingErr
        · simp [hc, hp]
        · by_cases hg : env.migErr <;> simp [hc, hp, hg]
  have hguard : ∀ st env, st.running = true → pgInit st env = (st, some .alreadyRunning) := by
    intro st env h
    simp [pgInit, h]
  refine ⟨hguard, hrun, ?_, ?_⟩
  · intro st env1 env2 h
    exact hguard _ env2 (hrun st env1 h)
  · intro st pe h
    simp [pgPing, h]

/-- Witness for C9 at concrete states: a second `Init` after a first
one (which succeeded past the guard) returns "already running", and
`Ping` on a fresh store returns "not running". -/
theorem init_guard_and_ping_witness :
    ((⟨false, none, none⟩ : PgState).running = false
      ∧ pgInit (pgInit ⟨false, none, none⟩ ⟨⟨none, none, none⟩, false, false, false, false, false⟩).1
          ⟨⟨none, none, none⟩, false, false, false, false, false⟩ =
        ((pgInit ⟨false, none, none⟩ ⟨⟨none, none, none⟩, false, false, false, false, false⟩).1,
         some .alreadyRunning))
    ∧ pgPing ⟨false, none, none⟩ false = some .notRunning :=
  ⟨⟨rfl, init_guard_and_ping.2.2.1 ⟨false, none, none⟩
      ⟨⟨none, none, none⟩, false, false, false, false, false⟩
      ⟨⟨none, none, none⟩, false, false, false, false, false⟩ rfl⟩,
   init_guard_and_ping.2.2.2 ⟨false, none, none⟩ false rfl⟩

/-- Claim C10 (refuted by the code): `Close` on a running store with a
non-nil pool never returns — the method calls itself on unchanged
state, for every recursion budget — and it never issues a close on the
pool; only on a non-running store does it return `nil` immediately. -/
theorem close_diverges_when_running :
    (∀ fuel, pgClose fuel ⟨true, none, some 1⟩ = none)
    ∧ (∀ fuel md db, pgClose (fuel + 1) ⟨false, md, db⟩ = some none) := by
  constructor
  · intro fuel
    induction fuel with
    | zero => rfl
    | succ n ih => simpa [pgClose] using ih
  · intro fuel md db
    simp [pgClose]

/-- Claim C1 (refuted by the code): inside `UpdateActorHost`'s
transactional body the DELETE of the old actor-type rows goes through
the pool (`p.db.Exec`) rather than the transaction, so when the
subsequent insert fails the rollback does not restore those rows: the
call returns an error, yet the host's old actor-type rows are gone and
the new set was never inserted — a visible partial write. -/
theorem updateActorHost_partial_write :
    (updateActorHost ⟨[⟨"h1", "addr1", "a1", 1, 0⟩], [⟨"h1", "cat", 30⟩], []⟩ "h1"
        ⟨some 5, some [⟨"dog", 10⟩]⟩ ⟨false, false, false, true, false⟩).err ≠ none
    ∧ (updateActorHost ⟨[⟨"h1", "addr1", "a1", 1, 0⟩], [⟨"h1", "cat", 30⟩], []⟩ "h1"
        ⟨some 5, some [⟨"dog", 10⟩]⟩ ⟨false, false, false, true, false⟩).state.hostActorTypes = []
    ∧ (updateActorHost ⟨[⟨"h1", "addr1", "a1", 1, 0⟩], [⟨"h1", "cat", 30⟩], []⟩ "h1"
        ⟨some 5, some [⟨"dog", 10⟩]⟩ ⟨false, false, false, true, false⟩).state ≠
      ⟨[⟨"h1", "addr1", "a1", 1, 0⟩], [⟨"h1", "cat", 30⟩], []⟩ := by
  refine ⟨?_, rfl, ?_⟩ <;> decide

/-- Claim C3 (refuted by the code): when all three `LookupActor`
attempts fail with a uniqueness violation, the loop exits and the
function returns the zero-valued response with a `nil` error — the
final database error is silently swallowed. -/
theorem lookupActor_swallows_final_unique_violation :
    lookupActor ⟨"cat", "id1"⟩ (fun _ => .fail .uniqueViolation) (fun _ => false) =
      ⟨zeroLookupResponse, none, 3, [50, 50, 50]⟩ := by
  decide

/-- `isUniqueViolationError` recognises exactly `uniqueViolation`. -/
lemma isUnique_true_iff (e : DbErr) : isUniqueViolationError e = true ↔ e = .uniqueViolation := by
  cases e <;> simp [isUniqueViolationError]

/-- Step equation: a successful query stops the loop. -/
lemma lookupLoop_step_ok {o : Nat → QueryOutcome} {c : Nat → Bool} {n i : Nat}
    {r : LookupActorResponse} (h : o i = .ok r) :
    lookupLoop o c (n + 1) i = ⟨r, none, 1, []⟩ := by
  simp [lookupLoop, h]

/-- Step equation: an empty result stops the loop with `NoActorHost`. -/
lemma lookupLoop_step_noRows {o : Nat → QueryOutcome} {c : Nat → Bool} {n i : Nat}
    (h : o i = .fail .noRows) :
    lookupLoop o c (n + 1) i = ⟨zeroLookupResponse, some .noActorHost, 1, []⟩ := by
  simp [lookupLoop, h]

/-- Step equation: a uniqueness violation with the context cancelled
during the backoff returns the context's error. -/
lemma lookupLoop_step_cancel {o : Nat → QueryOutcome} {c : Nat → Bool} {n i : Nat}
    (h : o i = .fail .uniqueViolation) (hc : c i = true) :
    lookupLoop o c (n + 1) i = ⟨zeroLookupResponse, some .ctxCancelled, 1, []⟩ := by
  simp [lookupLoop, h, isUniqueViolationError, hc]

/-- Step equation: a uniqueness violation with a live context sleeps
50 ms and retries. -/
lemma lookupLoop_step_retry {o : Nat → QueryOutcome} {c : Nat → Bool} {n i : Nat}
    (h : o i = .fail .uniqueViolation) (hc : c i = false) :
    lookupLoop o c (n + 1) i =
      ⟨(lookupLoop o c n (i + 1)).res, (lookupLoop o c n (i + 1)).err,
       (lookupLoop o c n (i + 1)).attempts + 1, 50 :: (lookupLoop o c n (i + 1)).sleeps⟩ := by
  simp [lookupLoop, h, isUniqueViolationError, hc]

/-- Step equation: any other database error stops the loop, wrapped. -/
lemma lookupLoop_step_other {o : Nat → QueryOutcome} {c : Nat → Bool} {n i : Nat}
    {e : DbErr} (h : o i = .fail e) (hu : isUniqueViolationError e = false)
    (hn : e ≠ .noRows) :
    lookupLoop o c (n + 1) i = ⟨zeroLookupResponse, some (.dbWrapped "database error" e), 1, []⟩ := by
  simp [lookupLoop, h, hn, hu]

/-- The retry loop performs at most `rem` query attempts. -/
lemma lookupLoop_attempts_le (o : Nat → QueryOutcome) (c : Nat → Bool) :
    ∀ rem i, (lookupLoop o c rem i).attempts ≤ rem := by
  intro rem
  induction rem with
  | zero => intro i; simp [lookupLoop]
  | succ n ih =>
    intro i
    cases h : o i with
    | ok r =>
      rw [lookupLoop_step_ok h]
      exact Nat.succ_le_succ (Nat.zero_le n)
    | fail e =>
      cases e with
      | noRows =>
        rw [lookupLoop_step_noRows h]
        exact Nat.succ_le_succ (Nat.zero_le n)
      | uniqueViolation =>
        cases hc : c i with
        | true =>
          rw [lookupLoop_step_cancel h hc]
          exact Nat.succ_le_succ (Nat.zero_le n)
        | false =>
          rw [lookupLoop_step_retry h hc]
          exact Nat.succ_le_succ (ih (i + 1))
      | otherErr k =>
        rw [lookupLoop_step_other h (by simp [isUniqueViolationError]) (by simp)]
        exact Nat.succ_le_succ (Nat.zero_le n)

/-- Every completed backoff sleep of the retry loop lasts 50 ms. -/
lemma lookupLoop_sleeps (o : Nat → QueryOutcome) (c : Nat → Bool) :
    ∀ rem i s, s ∈ (lookupLoop o c rem i).sleeps → s = 50 := by
  intro rem
  induction rem with
  | zero => intro i s hs; simp [lookupLoop] at hs
  | succ n ih =>
    intro i s hs
    cases h : o i with
    | ok r => rw [lookupLoop_step_ok h] at hs; simp at hs
    | fail e =>
      cases e with
      | noRows => rw [lookupLoop_step_noRows h] at hs; simp at hs
      | uniqueViolation =>
        cases hc : c i with
        | true => rw [lookupLoop_step_cancel h hc] at hs; simp at hs
        | false =>
          rw [lookupLoop_step_retry h hc] at hs
          simp only [List.mem_cons] at hs
          rcases hs with hs | hs
          · exact hs
          · exact ih (i + 1) s hs
      | otherErr k =>
        rw [lookupLoop_step_other h (by simp [isUniqueViolationError]) (by simp)] at hs
        simp at hs

/-- Every attempt of the retry loop other than the last was a
uniqueness-violation failure with the context still live: the loop
retries only in that case. -/
lemma lookupLoop_retry_only_unique (o : Nat → QueryOutcome) (c : Nat → Bool) :
    ∀ rem i k, k + 1 < (lookupLoop o c rem i).attempts →
      o (i + k) = .fail .uniqueViolation ∧ c (i + k) = false := by
  intro rem
  induction rem with
  | zero => intro i k hk; simp [lookupLoop] at hk
  | succ n ih =>
    intro i k hk
    cases h : o i with
    | ok r => rw [lookupLoop_step_ok h] at hk; simp at hk
    | fail e =>
      cases e with
      | noRows => rw [lookupLoop_step_noRows h] at hk; simp at hk
      | uniqueViolation =>
        cases hc : c i with
        | true => rw [lookupLoop_step_cancel h hc] at hk; simp at hk
        | false =>
          rw [lookupLoop_step_retry h hc] at hk
          simp only at hk
          cases k with
          | zero => exact ⟨by rw [Nat.add_zero]; exact h, by rw [Nat.add_zero]; exact hc⟩
          | succ k =>
            have hk2 : k + 1 < (lookupLoop o c n (i + 1)).attempts := by omega
            have harith : i + (k + 1) = i + 1 + k := by omega
            rw [harith]
            exact ih (i + 1) k hk2
      | otherErr j =>
        rw [lookupLoop_step_other h (by simp [isUniqueViolationError]) (by simp)] at hk
        simp at hk

/-- Full characterisation of what the retry loop does at the attempt it
stops on: an empty result becomes `NoActorHost`; a uniqueness violation
with the context cancelled during backoff becomes the context's error;
any other database error is wrapped and returned; all three stop the
loop at that attempt. -/
lemma lookupLoop_stop_behavior (o : Nat → QueryOutcome) (c : Nat → Bool) :
    ∀ rem i k, k < (lookupLoop o c rem i).attempts →
      (o (i + k) = .fail .noRows →
        (lookupLoop o c rem i).err = some .noActorHost ∧
        (lookupLoop o c rem i).attempts = k + 1)
      ∧ (o (i + k) = .fail .uniqueViolation → c (i + k) = true →
        (lookupLoop o c rem i).err = some .ctxCancelled ∧
        (lookupLoop o c rem i).attempts = k + 1)
      ∧ (∀ e, o (i + k) = .fail e → isUniqueViolationError e = false → e ≠ .noRows →
        (lookupLoop o c rem i).err = some (.dbWrapped "database error" e) ∧
        (lookupLoop o c rem i).attempts = k + 1)
      ∧ (∀ r, o (i + k) = .ok r →
        (lookupLoop o c rem i).err = none ∧ (lookupLoop o c rem i).res = r ∧
        (lookupLoop o c rem i).attempts = k + 1) := by
  intro rem
  induction rem with
  | zero => intro i k hk; simp [lookupLoop] at hk
  | succ n ih =>
    intro i k hk
    cases h : o i with
    | ok r0 =>
      rw [lookupLoop_step_ok h] at hk ⊢
      simp only at hk
      have hk0 : k = 0 := by omega
      subst hk0
      rw [Nat.add_zero]
      refine ⟨?_, ?_, ?_, ?_⟩
      · intro hx; rw [h] at hx; exact absurd hx (by simp)
      · intro hx; rw [h] at hx; exact absurd hx (by simp)
      · intro e hx; rw [h] at hx; exact absurd hx (by simp)
      · intro r hx
        rw [h] at hx
        cases hx
        exact ⟨rfl, rfl, rfl⟩
    | fail e0 =>
      cases e0 with
      | noRows =>
        rw [lookupLoop_step_noRows h] at hk ⊢
        simp only at hk
        have hk0 : k = 0 := by omega
        subst hk0
        rw [Nat.add_zero]
        refine ⟨fun _ => ⟨rfl, rfl⟩, ?_, ?_, ?_⟩
        · intro hx; rw [h] at hx; exact absurd hx (by simp)
        · intro e hx hu hn
          rw [h] at hx
          cases hx
          exact absurd rfl hn
        · intro r hx; rw [h] at hx; exact absurd hx (by simp)
      | uniqueViolation =>
        cases hc : c i with
        | true =>
          rw [lookupLoop_step_cancel h hc] at hk ⊢
          simp only at hk
          have hk0 : k = 0 := by omega
          subst hk0
          rw [Nat.add_zero]
          refine ⟨?_, fun _ _ => ⟨rfl, rfl⟩, ?_, ?_⟩
          · intro hx; rw [h] at hx; exact absurd hx (by simp)
          · intro e hx hu hn
            rw [h] at hx
            cases hx
            simp [isUniqueViolationError] at hu
          · intro r hx; rw [h] at hx; exact absurd hx (by simp)
        | false =>
          rw [lookupLoop_step_retry h hc] at hk ⊢
          simp only at hk ⊢
          cases k with
          | zero =>
            rw [Nat.add_zero]
            refine ⟨?_, ?_, ?_, ?_⟩
            · intro hx; rw [h] at hx; exact absurd hx (by simp)
            · intro _ hx
              rw [hc] at hx
              exact absurd hx (by simp)
            · intro e hx hu hn
              rw [h] at hx
              cases hx
              simp [isUniqueViolationError] at hu
            · intro r hx; rw [h] at hx; exact absurd hx (by simp)
          | succ k =>
            have hk2 : k < (lookupLoop o c n (i + 1)).attempts := by omega
            have harith : i + (k + 1) = i + 1 + k := by omega
            rw [harith]
            have hrec := ih (i + 1) k hk2
            refine ⟨?_, ?_, ?_, ?_⟩
            · intro hx
              have hr := hrec.1 hx
              exact ⟨hr.1, by omega⟩
            · intro hx hcx
              have hr := hrec.2.1 hx hcx
              exact ⟨hr.1, by omega⟩
            · intro e hx hu hn
              have hr := hrec.2.2.1 e hx hu hn
              exact ⟨hr.1, by omega⟩
            · intro r hx
              have hr := hrec.2.2.2 r hx
              exact ⟨hr.1, hr.2.1, by omega⟩
      | otherErr j =>
        rw [lookupLoop_step_other h (by simp [isUniqueViolationError]) (by simp)] at hk ⊢
        simp only at hk
        have hk0 : k = 0 := by omega
        subst hk0
        rw [Nat.add_zero]
        refine ⟨?_, ?_, ?_, ?_⟩
        · intro hx
          rw [h] at hx
          exact absurd hx (by simp)
        · intro hx
          rw [h] at hx
          exact absurd hx (by simp)
        · intro e hx hu hn
          rw [h] at hx
          cases hx
          exact ⟨rfl, rfl⟩
        · intro r hx; rw [h] at hx; exact absurd hx (by simp)

/-- Claim C2: `LookupActor` retries only on uniqueness-constraint
violations, makes at most 3 attempts in total, every completed backoff
sleep is exactly 50 ms, cancellation of the context during a backoff
returns the context error immediately without a further attempt, any
database error other than a uniqueness violation or an empty result
stops the loop and is returned, and an empty result is returned as
`NoActorHost`. -/
theorem lookupActor_retry_policy (ref : ActorRef) (outcome : Nat → QueryOutcome)
    (cancelled : Nat → Bool) (hT : ref.actorType ≠ "") (hI : ref.actorID ≠ "") :
    (lookupActor ref outcome cancelled).attempts ≤ 3
    ∧ (∀ k, k + 1 < (lookupActor ref outcome cancelled).attempts →
        outcome k = .fail .uniqueViolation ∧ cancelled k = false)
    ∧ (∀ s ∈ (lookupActor ref outcome cancelled).sleeps, s = 50)
    ∧ (∀ k, k < (lookupActor ref outcome cancelled).attempts →
        outcome k = .fail .noRows →
        (lookupActor ref outcome cancelled).err = some .noActorHost ∧
        (lookupActor ref outcome cancelled).attempts = k + 1)
    ∧ (∀ k, k < (lookupActor ref outcome cancelled).attempts →
        outcome k = .fail .uniqueViolation → cancelled k = true →
        (lookupActor ref outcome cancelled).err = some .ctxCancelled ∧
        (lookupActor ref outcome cancelled).attempts = k + 1)
    ∧ (∀ k e, k < (lookupActor ref outcome cancelled).attempts →
        outcome k = .fail e → isUniqueViolationError e = false → e ≠ .noRows →
        (lookupActor ref outcome cancelled).err = some (.dbWrapped "database error" e) ∧
        (lookupActor ref outcome cancelled).attempts = k + 1) := by
  have hval : ¬(ref.actorType = "" ∨ ref.actorID = "") := by
    rintro (h | h)
    · exact hT h
    · exact hI h
  have hact : lookupActor ref outcome cancelled = lookupLoop outcome cancelled 3 0 := by
    simp [lookupActor, hval]
  rw [hact]
  refine ⟨lookupLoop_attempts_le outcome cancelled 3 0, ?_, ?_, ?_, ?_, ?_⟩
  · intro k hk
    have := lookupLoop_retry_only_unique outcome cancelled 3 0 k hk
    simpa using this
  · intro s hs
    exact lookupLoop_sleeps outcome cancelled 3 0 s hs
  · intro k hk hno
    have := (lookupLoop_stop_behavior outcome cancelled 3 0 k hk).1
    simp only [Nat.zero_add] at this
    exact this hno
  · intro k hk hu hc
    have := (lookupLoop_stop_behavior outcome cancelled 3 0 k hk).2.1
    simp only [Nat.zero_add] at this
    exact this hu hc
  · intro k e hk he hu hn
    have := (lookupLoop_stop_behavior outcome cancelled 3 0 k hk).2.2.1
    simp only [Nat.zero_add] at this
    exact this e he hu hn

/-- Witness for C2 at a concrete input: first attempt hits a uniqueness
violation, the second succeeds; the bound, the single 50 ms sleep, and
the retry condition are all observed. -/
theorem lookupActor_retry_policy_witness :
    ((⟨"cat", "id1"⟩ : ActorRef).actorType ≠ "" ∧ (⟨"cat", "id1"⟩ : ActorRef).actorID ≠ "")
    ∧ (lookupActor ⟨"cat", "id1"⟩
        (fun n => if n = 0 then .fail .uniqueViolation else .ok ⟨"a1", "addr1", 30⟩)
        (fun _ => false)).attempts ≤ 3 :=
  ⟨⟨by decide, by decide⟩,
   (lookupActor_retry_policy ⟨"cat", "id1"⟩
      (fun n => if n = 0 then .fail .uniqueViolation else .ok ⟨"a1", "addr1", 30⟩)
      (fun _ => false) (by decide) (by decide)).1⟩

/-- The trace of `updateHostsTable` is empty (field absent) or the
single UPDATE statement. -/
lemma updateHostsTable_trace (v : List HostRow) (id : String) (lhc : Option Nat) (fail : Bool) :
    (updateHostsTable v id lhc fail).2.2 = [] ∨
    (updateHostsTable v id lhc fail).2.2 = [Stmt.updateHostsStmt] := by
  cases lhc with
  | none => exact Or.inl rfl
  | some t =>
    by_cases h : fail
    · simp [updateHostsTable, h]
    · by_cases h2 : hostExists v id <;> simp [updateHostsTable, h, h2]

/-- Claim C4: `UpdateActorHost` distinguishes absent from empty
`ActorTypes`: with `ActorTypes` nil no statement touches the
actor-types table and the declared types are unchanged; with
`ActorTypes` an empty non-nil list the host's actor-type rows are all
deleted and none inserted; and when both fields are absent or the host
ID is empty, the call fails with `InvalidRequest` before any database
access (empty trace, unchanged state). -/
theorem updateActorHost_nil_vs_empty :
    (∀ st id props f, props.actorTypes = none →
      (updateActorHost st id props f).state.hostActorTypes = st.hostActorTypes
      ∧ Stmt.deleteHostActorTypesStmt ∉ (updateActorHost st id props f).trace
      ∧ Stmt.insertHostActorTypesStmt ∉ (updateActorHost st id props f).trace)
    ∧ (∀ st id lhc f, id ≠ "" → f.beginErr = false → f.updateErr = false →
        f.deleteErr = false → f.commitErr = false →
        (lhc = none ∨ hostExists st.hosts id = true) →
        (updateActorHost st id ⟨lhc, some []⟩ f).err = none
        ∧ (updateActorHost st id ⟨lhc, some []⟩ f).state.hostActorTypes =
            dropTypesFor st.hostActorTypes id
        ∧ Stmt.insertHostActorTypesStmt ∉ (updateActorHost st id ⟨lhc, some []⟩ f).trace)
    ∧ (∀ st id props f,
        (id = "" ∨ (props.lastHealthCheck = none ∧ props.actorTypes = none)) →
        updateActorHost st id props f = ⟨st, some .invalidRequest, []⟩) := by
  refine ⟨?_, ?_, ?_⟩
  · intro st id props f hat
    rcases props with ⟨lhc, at0⟩
    cases hat
    by_cases hval : id = "" ∨ lhc = none
    · simp [updateActorHost, hval]
    · rcases hU : updateHostsTable st.hosts id lhc f.updateErr with ⟨h2, e2, t2⟩
      have hred : updateActorHost st id ⟨lhc, none⟩ f =
          ⟨⟨h2, st.hostActorTypes, st.actors⟩, e2, t2⟩ := by
        simp [updateActorHost, hval, hU]
      rw [hred]
      refine ⟨rfl, ?_, ?_⟩ <;>
      · rcases updateHostsTable_trace st.hosts id lhc f.updateErr with h | h <;>
          rw [hU] at h <;> simp only at h <;> simp [h]
  · intro st id lhc f hid hb hu hd hcm hhost
    rcases f with ⟨fb, fu, fd, fi, fc⟩
    simp only at hb hu hd hcm
    subst hb; subst hu; subst hd; subst hcm
    rcases hhost with hlhc | hex
    · subst hlhc
      simp [updateActorHost, hid, updateHostsTable, insertHostActorTypes]
    · cases lhc with
      | none => simp [updateActorHost, hid, updateHostsTable, insertHostActorTypes]
      | some t =>
        simp [updateActorHost, hid, updateHostsTable, hex, insertHostActorTypes]
  · intro st id props f hval
    simp [updateActorHost, hval]

/-- Witness for C4 at concrete inputs: absent list leaves the single
declared type in place; empty list removes it; empty host ID is an
`InvalidRequest` with no statement issued. -/
theorem updateActorHost_nil_vs_empty_witness :
    ((⟨[⟨"h1", "addr1", "a1", 1, 0⟩], [⟨"h1", "cat", 30⟩], []⟩ : DBState).hostActorTypes =
        [⟨"h1", "cat", 30⟩])
    ∧ (updateActorHost ⟨[⟨"h1", "addr1", "a1", 1, 0⟩], [⟨"h1", "cat", 30⟩], []⟩ "h1"
        ⟨some 7, none⟩ ⟨false, false, false, false, false⟩).state.hostActorTypes =
      [⟨"h1", "cat", 30⟩]
    ∧ (updateActorHost ⟨[⟨"h1", "addr1", "a1", 1, 0⟩], [⟨"h1", "cat", 30⟩], []⟩ "h1"
        ⟨none, some []⟩ ⟨false, false, false, false, false⟩).err = none
    ∧ (updateActorHost ⟨[⟨"h1", "addr1", "a1", 1, 0⟩], [⟨"h1", "cat", 30⟩], []⟩ "h1"
        ⟨none, some []⟩ ⟨false, false, false, false, false⟩).state.hostActorTypes =
      dropTypesFor [⟨"h1", "cat", 30⟩] "h1"
    ∧ updateActorHost ⟨[⟨"h1", "addr1", "a1", 1, 0⟩], [⟨"h1", "cat", 30⟩], []⟩ ""
        ⟨some 7, none⟩ ⟨false, false, false, false, false⟩ =
      ⟨⟨[⟨"h1", "addr1", "a1", 1, 0⟩], [⟨"h1", "cat", 30⟩], []⟩, some .invalidRequest, []⟩ :=
  ⟨rfl,
   (updateActorHost_nil_vs_empty.1 ⟨[⟨"h1", "addr1", "a1", 1, 0⟩], [⟨"h1", "cat", 30⟩], []⟩
      "h1" ⟨some 7, none⟩ ⟨false, false, false, false, false⟩ rfl).1,
   ((updateActorHost_nil_vs_empty.2.1 ⟨[⟨"h1", "addr1", "a1", 1, 0⟩], [⟨"h1", "cat", 30⟩], []⟩
      "h1" none ⟨false, false, false, false, false⟩ (by decide) rfl rfl rfl rfl (Or.inl rfl))).1,
   ((updateActorHost_nil_vs_empty.2.1 ⟨[⟨"h1", "addr1", "a1", 1, 0⟩], [⟨"h1", "cat", 30⟩], []⟩
      "h1" none ⟨false, false, false, false, false⟩ (by decide) rfl rfl rfl rfl (Or.inl rfl))).2.1,
   updateActorHost_nil_vs_empty.2.2 ⟨[⟨"h1", "addr1", "a1", 1, 0⟩], [⟨"h1", "cat", 30⟩], []⟩
      "" ⟨some 7, none⟩ ⟨false, false, false, false, false⟩ (Or.inl rfl)⟩

/-- The error of `insertHostActorTypes` is `none` or the wrapped insert
failure. -/
lemma insertHostActorTypes_err (ts : List ActorHostType) (id : String) (fail : Bool) :
    (insertHostActorTypes ts id fail).2.1 = none ∨
    (insertHostActorTypes ts id fail).2.1 =
      some (.dbWrapped "failed to insert supported actor types in hosts actor types table"
        (.otherErr 0)) := by
  by_cases h : ts.isEmpty <;> by_cases h2 : fail <;> simp [insertHostActorTypes, h, h2]

/-- On valid fields, `AddActorHost` never returns `InvalidRequest`. -/
lemma addActorHost_err_not_invalid (st : DBState) (props : AddActorHostRequest)
    (id : String) (now : Nat) (f : AddFail)
    (hval : ¬(props.appID = "" ∨ props.address = "" ∨ props.apiLevel ≤ 0)) :
    (addActorHost st props id now f).err ≠ some .invalidRequest := by
  simp only [addActorHost, hval, if_false]
  by_cases fb : f.beginErr = true
  · simp [fb]
  · simp only [fb, if_false]
    cases hih : f.insertHost with
    | none =>
      rcases hIT : insertHostActorTypes props.actorTypes id f.insertTypesErr with ⟨rows, oe, tr⟩
      have hshape := insertHostActorTypes_err props.actorTypes id f.insertTypesErr
      rw [hIT] at hshape
      simp only at hshape
      rcases oe with _ | e
      · by_cases fcm : f.commitErr = true <;> simp [hIT, fcm]
      · rcases hshape with hh | hh
        · exact absurd hh (by simp)
        · have he : e = .dbWrapped "failed to insert supported actor types in hosts actor types table" (.otherErr 0) :=
            Option.some.inj hh
          subst he
          simp [hIT]
    | some e => cases e <;> simp

/-- Claim C6: `AddActorHost` fails with `InvalidRequest` exactly when
the address is empty, the application ID is empty, or the API level is
not strictly positive; that failure happens before any database access;
an empty actor-types list is accepted; and a uniqueness violation on
the host insert is reported as `HostConflict`. -/
theorem addActorHost_validation_and_conflict :
    (∀ st props id now f,
      ((props.appID = "" ∨ props.address = "" ∨ props.apiLevel ≤ 0) ↔
        (addActorHost st props id now f).err = some .invalidRequest))
    ∧ (∀ st props id now f, (props.appID = "" ∨ props.address = "" ∨ props.apiLevel ≤ 0) →
        (addActorHost st props id now f).trace = [])
    ∧ (∀ st addr app lvl id now, app ≠ "" → addr ≠ "" → (0 : Int) < lvl →
        (addActorHost st ⟨addr, app, lvl, []⟩ id now ⟨false, none, false, false⟩).err = none
        ∧ (addActorHost st ⟨addr, app, lvl, []⟩ id now ⟨false, none, false, false⟩).hostID =
            some id)
    ∧ (∀ st props id now f, ¬(props.appID = "" ∨ props.address = "" ∨ props.apiLevel ≤ 0) →
        f.beginErr = false → f.insertHost = some .uniqueViolation →
        (addActorHost st props id now f).err = some .hostConflict) := by
  refine ⟨?_, ?_, ?_, ?_⟩
  · intro st props id now f
    by_cases hval : props.appID = "" ∨ props.address = "" ∨ props.apiLevel ≤ 0
    · refine iff_of_true hval ?_
      simp [addActorHost, hval]
    · exact iff_of_false hval (addActorHost_err_not_invalid st props id now f hval)
  · intro st props id now f hval
    simp [addActorHost, hval]
  · intro st addr app lvl id now happ haddr hlvl
    have hval : ¬(app = "" ∨ addr = "" ∨ lvl ≤ 0) := by
      rintro (h | h | h)
      · exact happ h
      · exact haddr h
      · omega
    constructor <;> simp [addActorHost, hval, insertHostActorTypes]
  · intro st props id now f hval hb hi
    simp [addActorHost, hval, hb, hi]

/-- Witness for C6 at concrete inputs: a valid registration with empty
actor types succeeds, and a duplicate registration (uniqueness
violation on the insert) is a `HostConflict`. -/
theorem addActorHost_validation_and_conflict_witness :
    (("a1" : String) ≠ "" ∧ ("addr1" : String) ≠ "" ∧ (0 : Int) < 1
      ∧ (addActorHost ⟨[], [], []⟩ ⟨"addr1", "a1", 1, []⟩ "h9" 0 ⟨false, none, false, false⟩).err =
          none)
    ∧ (¬(("a1" : String) = "" ∨ ("addr1" : String) = "" ∨ (1 : Int) ≤ 0)
      ∧ (addActorHost ⟨[], [], []⟩ ⟨"addr1", "a1", 1, []⟩ "h9" 0
          ⟨false, some .uniqueViolation, false, false⟩).err = some .hostConflict) :=
  ⟨⟨by decide, by decide, by decide,
    (addActorHost_validation_and_conflict.2.2.1 ⟨[], [], []⟩ "addr1" "a1" 1 "h9" 0
      (by decide) (by decide) (by decide)).1⟩,
   ⟨by decide,
    addActorHost_validation_and_conflict.2.2.2 ⟨[], [], []⟩ ⟨"addr1", "a1", 1, []⟩ "h9" 0
      ⟨false, some .uniqueViolation, false, false⟩ (by decide) rfl rfl⟩⟩

/-- Claim C7: deletes and updates keyed to an existing row report
absence as the matching typed NotFound error: `RemoveActorHost` yields
`HostNotFound` and `RemoveActor` yields `ActorNotFound` on a DELETE of
zero rows, `DeleteReminder` yields `ReminderNotFound` for a
nonexistent reminder, and `UpdateActorHost` (both with and without an
actor-type list) fails with `HostNotFound` when the host row update
affects zero rows. -/
theorem notFound_on_missing_rows :
    (∀ st id, id ≠ "" → hostExists st.hosts id = false →
      removeActorHost st id false = ⟨st, some .hostNotFound, [.deleteHostsStmt]⟩)
    ∧ (∀ st ref, ref.actorType ≠ "" → ref.actorID ≠ "" →
        st.actors.any (fun a => a.actorType == ref.actorType && a.actorID == ref.actorID) =
          false →
        removeActor st ref false = ⟨st, some .actorNotFound, [.deleteActorsStmt]⟩)
    ∧ (∀ rs ref nm,
        rs.any (fun r => r.actorType == ref.actorType && r.actorID == ref.actorID &&
          r.name == nm) = false →
        deleteReminder rs ref nm false = (rs, some .reminderNotFound, [.deleteRemindersStmt]))
    ∧ (∀ st id t f, id ≠ "" → f.updateErr = false → hostExists st.hosts id = false →
        (updateActorHost st id ⟨some t, none⟩ f).err = some .hostNotFound)
    ∧ (∀ st id t ts f, id ≠ "" → f.beginErr = false → f.updateErr = false →
        hostExists st.hosts id = false →
        (updateActorHost st id ⟨some t, some ts⟩ f).err = some .hostNotFound) := by
  refine ⟨?_, ?_, ?_, ?_, ?_⟩
  · intro st id hid hex
    simp [removeActorHost, hid, hex]
  · intro st ref ht hi hany
    have hval : ¬(ref.actorType = "" ∨ ref.actorID = "") := by
      rintro (h | h)
      · exact ht h
      · exact hi h
    simp [removeActor, hval, hany]
  · intro rs ref nm hany
    simp [deleteReminder, hany]
  · intro st id t f hid hu hex
    simp [updateActorHost, hid, updateHostsTable, hu, hex]
  · intro st id t ts f hid hb hu hex
    simp [updateActorHost, hid, hb, updateHostsTable, hu, hex]

/-- Witness for C7 on an empty database: every operation reports its
typed NotFound error. -/
theorem notFound_on_missing_rows_witness :
    (("h1" : String) ≠ ""
      ∧ removeActorHost ⟨[], [], []⟩ "h1" false =
          ⟨⟨[], [], []⟩, some .hostNotFound, [.deleteHostsStmt]⟩)
    ∧ removeActor ⟨[], [], []⟩ ⟨"cat", "i"⟩ false =
        ⟨⟨[], [], []⟩, some .actorNotFound, [.deleteActorsStmt]⟩
    ∧ deleteReminder [] ⟨"cat", "i"⟩ "r" false =
        ([], some .reminderNotFound, [.deleteRemindersStmt])
    ∧ (updateActorHost ⟨[], [], []⟩ "h1" ⟨some 5, none⟩
        ⟨false, false, false, false, false⟩).err = some .hostNotFound
    ∧ (updateActorHost ⟨[], [], []⟩ "h1" ⟨some 5, some [⟨"cat", 30⟩]⟩
        ⟨false, false, false, false, false⟩).err = some .hostNotFound :=
  ⟨⟨by decide, notFound_on_missing_rows.1 ⟨[], [], []⟩ "h1" (by decide) rfl⟩,
   notFound_on_missing_rows.2.1 ⟨[], [], []⟩ ⟨"cat", "i"⟩ (by decide) (by decide) rfl,
   notFound_on_missing_rows.2.2.1 [] ⟨"cat", "i"⟩ "r" rfl,
   notFound_on_missing_rows.2.2.2.1 ⟨[], [], []⟩ "h1" 5
     ⟨false, false, false, false, false⟩ (by decide) rfl rfl,
   notFound_on_missing_rows.2.2.2.2 ⟨[], [], []⟩ "h1" 5 [⟨"cat", 30⟩]
     ⟨false, false, false, false, false⟩ (by decide) rfl rfl rfl⟩

/-- `applyLease` never changes the reminder's ID. -/
lemma applyLease_id (now staleness : Nat) (pid leaseID : String) (r : Reminder) :
    (applyLease now staleness pid leaseID r).id = r.id := by
  unfold applyLease
  split <;> rfl

/-- Claim C5: the atomic fetch-and-lease never hands the same reminder
to two fetchers.  With distinct primary keys (reminder IDs) and the
second fetch happening while the first fetch's leases are not yet stale
(the concurrent window), no reminder ID is returned by both calls; and
in the post-state of a fetch, every returned reminder is leased by
exactly the calling fetcher. -/
theorem fetchAndLease_exclusive (rs : List Reminder) (now1 now2 staleness : Nat)
    (pid1 pid2 lid1 lid2 : String)
    (hInj : ∀ r ∈ rs, ∀ s ∈ rs, r.id = s.id → r = s)
    (hConc : now2 ≤ now1 + staleness) :
    (∀ x ∈ (fetchAndLease rs now1 staleness pid1 lid1).1,
      x ∉ (fetchAndLease (fetchAndLease rs now1 staleness pid1 lid1).2 now2 staleness
            pid2 lid2).1)
    ∧ (∀ r ∈ (fetchAndLease rs now1 staleness pid1 lid1).2,
        r.id ∈ (fetchAndLease rs now1 staleness pid1 lid1).1 →
        r.lease = some ⟨lid1, now1, pid1⟩) := by
  constructor
  · intro x hx1 hx2
    simp only [fetchAndLease, List.mem_map, List.mem_filter] at hx1 hx2
    obtain ⟨r, ⟨hrm, hre⟩, hrid⟩ := hx1
    obtain ⟨s, ⟨hsm, hse⟩, hsid⟩ := hx2
    obtain ⟨r2, hr2m, hr2eq⟩ := hsm
    by_cases he : reminderEligible now1 staleness r2
    · have hlease : s.lease = some ⟨lid1, now1, pid1⟩ := by
        rw [← hr2eq]
        simp [applyLease, he]
      simp only [reminderEligible, hlease, Bool.and_eq_true, decide_eq_true_eq] at hse
      omega
    · have hseq : s = r2 := by
        rw [← hr2eq]
        simp [applyLease, he]
      have hid2 : r.id = r2.id := by rw [hrid, ← hsid, hseq]
      have hrr2 : r = r2 := hInj r hrm r2 hr2m hid2
      rw [hrr2] at hre
      exact he hre
  · intro r' hr' hid
    simp only [fetchAndLease, List.mem_map] at hr'
    obtain ⟨r2, hr2m, hr2eq⟩ := hr'
    by_cases he : reminderEligible now1 staleness r2
    · rw [← hr2eq]
      simp [applyLease, he]
    · have heq : r' = r2 := by
        rw [← hr2eq]
        simp [applyLease, he]
      simp only [fetchAndLease, List.mem_map, List.mem_filter] at hid
      obtain ⟨r3, ⟨h3m, h3e⟩, h3id⟩ := hid
      have h32 : r3 = r2 := hInj r3 h3m r2 hr2m (by rw [h3id, heq])
      rw [h32] at h3e
      exact absurd h3e he

/-- Witness for C5 at a concrete input: a single due, unleased
reminder is returned by the first fetch and not by a second fetch
issued within the staleness window. -/
theorem fetchAndLease_exclusive_witness :
    ((∀ r ∈ [(⟨"r1", "cat", "i", "n", 0, none⟩ : Reminder)],
        ∀ s ∈ [(⟨"r1", "cat", "i", "n", 0, none⟩ : Reminder)], r.id = s.id → r = s)
      ∧ (0 : Nat) ≤ 0 + 100)
    ∧ (∀ x ∈ (fetchAndLease [⟨"r1", "cat", "i", "n", 0, none⟩] 0 100 "p1" "l1").1,
        x ∉ (fetchAndLease (fetchAndLease [⟨"r1", "cat", "i", "n", 0, none⟩] 0 100
              "p1" "l1").2 0 100 "p2" "l2").1) :=
  ⟨⟨by decide, by decide⟩,
   (fetchAndLease_exclusive [⟨"r1", "cat", "i", "n", 0, none⟩] 0 0 100 "p1" "p2" "l1" "l2"
     (by decide) (by decide)).1⟩

end ActorStorePg
